import Mathlib

/-!
Shallow embedding of the NeoMind-Extensions streaming protocol code
(extensions `image-analyzer` and `yolo-video`), used to settle claims
about the natural-language specification.

Modelling conventions:
* Rust `u64`/`u32`/`usize` counters become `Nat` (the source never
  subtracts from or overflows any of the counters the claims mention,
  so wrap-around at `2 ^ 64` is unreachable on every input the theorems
  touch; we note this where a counter is incremented).
* `f32` values (confidences, fps) become `Rat`; no claim depends on
  floating-point rounding.
* Timestamps (`chrono::Utc::now().timestamp_millis()`) and measured
  durations (`Instant::elapsed`) are nondeterministic inputs, so every
  operation takes them as explicit arguments (`now : Int`, `dt : Nat`).
* Methods taking `&self` with interior mutability (`Mutex` around stats
  and the session `HashMap`) become explicit state passing: each
  operation maps the pre-state to the post-state together with an
  `Except` result, mirroring the early-return structure of the source.
* `HashMap<String, _>` becomes an association list; the operations only
  ever insert a key after a failed lookup, so keys stay distinct and the
  list length is the map's entry count.
* `serde_json` values are modelled by a small `Json` inductive; the
  payload of a `StreamResult` is modelled at the JSON level (the byte
  rendering performed by `serde_json::to_vec`, an external crate, is not
  modelled; `to_vec` cannot fail on the result structs the two
  extensions serialize — they contain only numbers, strings, lists and
  string-keyed maps — so the `map_err(InvalidStreamData)` branches after
  it are dead code and the modelled serialization is total).
-/

/-- Minimal JSON value tree, standing in for `serde_json::Value`. -/
inductive Json where
  | null : Json
  | bool (b : Bool) : Json
  | num (q : Rat) : Json
  | str (s : String) : Json
  | arr (elems : List Json) : Json
  | obj (fields : List (String × Json)) : Json

/-- Modelled from the spec: the error taxonomy of `neomind-core`
(declared outside `src/`; only its constructors' use sites are in the
repository sources). `CapacityExceeded` is listed in the spec's §7
taxonomy; the remaining variants appear at use sites in `src/`. -/
inductive ExtensionError where
  | SessionNotFound (id : String) : ExtensionError
  | SessionAlreadyExists (id : String) : ExtensionError
  | InvalidStreamData (msg : String) : ExtensionError
  | CommandNotFound (name : String) : ExtensionError
  | InvalidArguments (msg : String) : ExtensionError
  | CapacityExceeded (msg : String) : ExtensionError
deriving DecidableEq

/-- Modelled from the spec (§3) and the use sites in `src/`: the typed
data-kind tag of a chunk or result (`neomind-core::StreamDataType`). -/
inductive StreamDataType where
  | Image (format : String) : StreamDataType
  | Video (codec : String) (width : Nat) (height : Nat) (fps : Nat) : StreamDataType
  | Binary : StreamDataType
  | Json : StreamDataType
deriving DecidableEq

/-- Modelled from the spec (§3): stream direction of a capability. -/
inductive StreamDirection where
  | Upload : StreamDirection
  | Download : StreamDirection
  | Bidirectional : StreamDirection
deriving DecidableEq

/-- Modelled from the spec (§3): stateless vs stateful processing. -/
inductive StreamMode where
  | Stateless : StreamMode
  | Stateful : StreamMode
deriving DecidableEq

/-- Modelled from the spec (§3) and the use sites in `src/`: the
capability descriptor (`neomind-core::StreamCapability`). The
`flow_control` and `config_schema` fields (always `Default::default()`
resp. `None` in the sources, unused by every claim) are omitted. -/
structure StreamCapability where
  direction : StreamDirection
  mode : StreamMode
  supported_data_types : List StreamDataType
  max_chunk_size : Nat
  preferred_chunk_size : Nat
  max_concurrent_sessions : Nat

/-- Modelled from the spec (§3) and the use sites in `src/`: one unit of
stream input (`neomind-core::DataChunk`); `data` is the byte payload. -/
structure DataChunk where
  sequence : Nat
  data : List Nat
  data_type : StreamDataType

/-- Modelled from the spec (§3) and the use sites in `src/`: the result
of processing one chunk (`neomind-core::StreamResult`). `data` holds the
JSON value whose `serde_json` rendering the source puts on the wire. -/
structure StreamResult where
  input_sequence : Option Nat
  output_sequence : Nat
  data : Json
  data_type : StreamDataType
  processing_ms : Rat
  metadata : Option Json
  error : Option String

/-- Modelled from the spec (§3/§4.3) and the use sites in `src/`: the
session descriptor passed to `init_session`
(`neomind-core::StreamSession`); `config` is the JSON configuration
payload, modelled by its parse outcome for the target config type. -/
inductive ConfigPayload where
  | wellFormed (threshold : Rat) (maxObjects : Nat) (targetFps : Nat) (tracking : Bool) : ConfigPayload
  | malformed : ConfigPayload
deriving DecidableEq

/-- Modelled from the use sites in `src/`: the fields of `StreamSession`
that `init_session` reads. -/
structure StreamSession where
  id : String
  config : ConfigPayload

/-- Modelled from the spec (§4.3) and the use sites in `src/`: the
summary returned by `close_session` (`neomind-core::SessionStats`). -/
structure SessionStats where
  input_chunks : Nat
  output_chunks : Nat
  input_bytes : Nat
  output_bytes : Nat
  errors : Nat
  last_activity : Int
deriving DecidableEq

/-- Lookup in an association list (model of `HashMap::get`). -/
def alistLookup {α : Type} : List (String × α) → String → Option α
  | [], _ => none
  | (k₁, v) :: rest, k => if k₁ = k then some v else alistLookup rest k

/-- Replace the value stored at a key (model of mutating through
`HashMap::get_mut`). -/
def alistUpdate {α : Type} : List (String × α) → String → α → List (String × α)
  | [], _, _ => []
  | (k₁, v) :: rest, k, w =>
      if k₁ = k then (k₁, w) :: alistUpdate rest k w
      else (k₁, v) :: alistUpdate rest k w

/-- Remove the entry of a key (model of `HashMap::remove`; the
operations never create duplicate keys, so removing every occurrence
coincides with removing the one entry). -/
def alistErase {α : Type} : List (String × α) → String → List (String × α)
  | [], _ => []
  | (k₁, v) :: rest, k =>
      if k₁ = k then alistErase rest k else (k₁, v) :: alistErase rest k

namespace ImageAnalyzer

/-- `struct Detection` of `image-analyzer/src/lib.rs`. -/
structure BoundingBox where
  x : Nat
  y : Nat
  width : Nat
  height : Nat
deriving DecidableEq

structure Detection where
  label : String
  confidence : Rat
  bbox : Option BoundingBox
deriving DecidableEq

/-- `struct AnalysisResult` of `image-analyzer/src/lib.rs`. -/
structure AnalysisResult where
  objects : List Detection
  dominant_color : Option String
  estimated_size : Option String
  processing_time_ms : Nat
deriving DecidableEq

/-- `struct ImageAnalyzerStats`: the global counters behind the
`Mutex` in `ImageAnalyzer`. -/
structure ImageAnalyzerStats where
  images_processed : Nat
  total_processing_time_ms : Nat
  detections_found : Nat
deriving DecidableEq

/-- `ImageAnalyzer::new()` starts with `ImageAnalyzerStats::default()`. -/
def initialStats : ImageAnalyzerStats :=
  { images_processed := 0, total_processing_time_ms := 0, detections_found := 0 }

/-- `ImageAnalyzer::detect_objects`: ignores the data and returns one
mock detection. (The source wraps this in `Result` but has no error
path.) -/
def detect_objects (_data : List Nat) : List Detection :=
  [{ label := "example_object", confidence := 85 / 100,
     bbox := some { x := 100, y := 100, width := 200, height := 150 } }]

/-- `ImageAnalyzer::extract_dominant_color`: signature sniffing on the
first bytes. (The source wraps this in `Result` but has no error
path.) -/
def extract_dominant_color (data : List Nat) : Option String :=
  if data.length < 100 then
    none
  else if [0xFF, 0xD8, 0xFF].isPrefixOf data then
    some "#808080"
  else if [0x89, 0x50, 0x4E, 0x47].isPrefixOf data then
    some "#808080"
  else
    none

/-- `ImageAnalyzer::estimate_image_size`: size bucket of the payload. -/
def estimate_image_size (data : List Nat) : Option String :=
  let size := data.length
  let category :=
    if size < 10000 then "small"
    else if size < 100000 then "medium"
    else if size < 1000000 then "large"
    else "very_large"
  some category

/-- `ImageAnalyzer::analyze_image`: runs the three analyses, then
updates the global counters (`images_processed`,
`total_processing_time_ms`, `detections_found`), then returns the
`AnalysisResult`. `dt` is the measured `Instant::elapsed` duration. The
source has no error path here (its callees always return `Ok`). -/
def analyze_image (stats : ImageAnalyzerStats) (dt : Nat) (data : List Nat) :
    ImageAnalyzerStats × AnalysisResult :=
  let objects := detect_objects data
  let dominant_color := extract_dominant_color data
  let estimated_size := estimate_image_size data
  let stats' : ImageAnalyzerStats :=
    { images_processed := stats.images_processed + 1,
      total_processing_time_ms := stats.total_processing_time_ms + dt,
      detections_found := stats.detections_found + objects.length }
  (stats', { objects := objects, dominant_color := dominant_color,
             estimated_size := estimated_size, processing_time_ms := dt })

/-- The `serde_json::to_vec(&result)` step of `process_chunk`, modelled
at the JSON level (field order as in the `Serialize` derive). -/
def analysisResultToJson (r : AnalysisResult) : Json :=
  .obj [("objects", .arr (r.objects.map fun d =>
          .obj [("label", .str d.label),
                ("confidence", .num d.confidence),
                ("bbox", match d.bbox with
                  | none => .null
                  | some b => .obj [("x", .num b.x), ("y", .num b.y),
                                    ("width", .num b.width),
                                    ("height", .num b.height)])])),
        ("dominant_color", match r.dominant_color with
          | none => .null
          | some c => .str c),
        ("estimated_size", match r.estimated_size with
          | none => .null
          | some s => .str s),
        ("processing_time_ms", .num r.processing_time_ms)]

/-- `ImageAnalyzer::stream_capability` (the `Some(..)` payload). -/
def stream_capability : StreamCapability :=
  { direction := .Upload,
    mode := .Stateless,
    supported_data_types :=
      [.Image "jpeg", .Image "png", .Image "webp"],
    max_chunk_size := 10 * 1024 * 1024,
    preferred_chunk_size := 1024 * 1024,
    max_concurrent_sessions := 10 }

/-- `ImageAnalyzer::process_chunk`: validates only the `data_type`
(`Image { .. }` proceeds, `Binary` is explicitly allowed, anything else
is `InvalidStreamData`), then analyzes the image (updating the global
counters) and builds the result. There is no size validation in the
source. Returns the post-state of the counters together with the
`Result`, mirroring the early returns of the source. -/
def process_chunk (stats : ImageAnalyzerStats) (dt : Nat) (chunk : DataChunk) :
    ImageAnalyzerStats × Except ExtensionError StreamResult :=
  match chunk.data_type with
  | .Image _ => processValidated stats dt chunk
  | .Binary => processValidated stats dt chunk
  | _ => (stats, .error (.InvalidStreamData "Expected image data"))
where
  /-- The code after the validation `match` in `process_chunk`. -/
  processValidated (stats : ImageAnalyzerStats) (dt : Nat) (chunk : DataChunk) :
      ImageAnalyzerStats × Except ExtensionError StreamResult :=
    let ar := analyze_image stats dt chunk.data
    let stats' := ar.1
    let result := ar.2
    (stats',
     .ok { input_sequence := some chunk.sequence,
           output_sequence := chunk.sequence,
           data := analysisResultToJson result,
           data_type := .Json,
           processing_ms := (result.processing_time_ms : Rat),
           metadata := some (.obj
             [("processing_time_ms", .num result.processing_time_ms),
              ("objects_detected", .num result.objects.length)]),
           error := none })

end ImageAnalyzer

namespace YoloVideo

/-- `struct VideoConfig` of `yolo-video/src/lib.rs` (the `f32`
`confidence_threshold` modelled as `Rat`). -/
structure VideoConfig where
  confidence_threshold : Rat
  max_objects : Nat
  target_fps : Nat
  enable_tracking : Bool
deriving DecidableEq

/-- `VideoConfig::default()` (the `#[derive(Default)]` zero values). -/
def VideoConfig.zero : VideoConfig :=
  { confidence_threshold := 0, max_objects := 0, target_fps := 0,
    enable_tracking := false }

/-- `serde_json::from_value::<VideoConfig>(session.config.clone()).unwrap_or_default()`
in `init_session`: a well-formed payload yields its values, anything
else falls back to the derived default. -/
def parseVideoConfig : ConfigPayload → VideoConfig
  | .wellFormed t m f tr =>
      { confidence_threshold := t, max_objects := m, target_fps := f,
        enable_tracking := tr }
  | .malformed => VideoConfig.zero

/-- `struct BoundingBox` of `yolo-video/src/lib.rs` (`f32` as `Rat`). -/
structure VBoundingBox where
  x : Rat
  y : Rat
  width : Rat
  height : Rat
deriving DecidableEq

/-- `struct ObjectDetection` of `yolo-video/src/lib.rs`. -/
structure ObjectDetection where
  id : Nat
  label : String
  confidence : Rat
  bbox : VBoundingBox
  class_id : Nat
deriving DecidableEq

/-- `struct FrameResult` of `yolo-video/src/lib.rs`. -/
structure FrameResult where
  frame_number : Nat
  timestamp_ms : Int
  detections : List ObjectDetection
  fps : Rat
  processing_time_ms : Nat
deriving DecidableEq

/-- `struct VideoSession`: the per-session accumulator owned by the
registry (`detected_objects` is the `HashMap<String, u32>` tally,
modelled as an association list). -/
structure VideoSession where
  id : String
  created_at : Int
  frame_count : Nat
  total_processing_time_ms : Nat
  total_detections : Nat
  last_frame_time : Option Int
  config : VideoConfig
  detected_objects : List (String × Nat)
deriving DecidableEq

/-- `struct GlobalStats` of `yolo-video/src/lib.rs`. -/
structure GlobalStats where
  sessions_created : Nat
  active_sessions : Nat
  total_frames_processed : Nat
  total_detections : Nat
deriving DecidableEq

/-- The whole mutable state of a `YoloVideoProcessor`: the session
registry (`Mutex<HashMap<String, VideoSession>>`) and the global stats
(`Mutex<GlobalStats>`). -/
structure YoloState where
  sessions : List (String × VideoSession)
  stats : GlobalStats
deriving DecidableEq

/-- `YoloVideoProcessor::new()`: empty registry, default stats. -/
def initialState : YoloState :=
  { sessions := [],
    stats := { sessions_created := 0, active_sessions := 0,
               total_frames_processed := 0, total_detections := 0 } }

/-- The `common_objects` table in `run_yolo_detection`. -/
def common_objects : List (String × Nat) :=
  [("person", 0), ("car", 1), ("truck", 2), ("bus", 3), ("bicycle", 4),
   ("dog", 5), ("cat", 6)]

/-- `YoloVideoProcessor::run_yolo_detection`: generates
`frame_count % 5 + 1` mock detections (cycling through
`common_objects`, confidence `0.6 + min(i * 0.05, 0.35)`), keeps those
at or above the session's confidence threshold (`Vec::retain`), and
truncates to `max_objects`. The source wraps this in `Result` but has
no error path. -/
def run_yolo_detection (session : VideoSession) : List ObjectDetection :=
  let num_detections := session.frame_count % 5 + 1
  let base := (List.range num_detections).map fun i =>
    let lc := (common_objects.get? (i % common_objects.length)).getD ("person", 0)
    { id := i, label := lc.1,
      confidence := 6 / 10 + min ((i : Rat) * 5 / 100) (35 / 100),
      bbox := { x := 100 + (i : Rat) * 50, y := 100 + (i : Rat) * 30,
                width := 200, height := 150 },
      class_id := lc.2 }
  let filtered := base.filter fun d =>
    decide (session.config.confidence_threshold ≤ d.confidence)
  filtered.take session.config.max_objects

/-- `*session.detected_objects.entry(label).or_insert(0) += 1`. -/
def tallyIncr (m : List (String × Nat)) (label : String) : List (String × Nat) :=
  match alistLookup m label with
  | some n => alistUpdate m label (n + 1)
  | none => m ++ [(label, 1)]

/-- `YoloVideoProcessor::process_frame`: runs the mock detection, then
updates the session accumulator (`frame_count`, total time, total
detections, `last_frame_time`, per-label tally), computes the running
fps, and returns the `FrameResult`, whose `frame_number` is the
`sequence` argument — the caller passes `chunk.sequence`. `now` is
`Utc::now().timestamp_millis()` and `dt` the measured elapsed time. -/
def process_frame (session : VideoSession) (now : Int) (dt : Nat)
    (_data : List Nat) (sequence : Nat) : VideoSession × FrameResult :=
  let detections := run_yolo_detection session
  let session' : VideoSession :=
    { session with
      frame_count := session.frame_count + 1,
      total_processing_time_ms := session.total_processing_time_ms + dt,
      total_detections := session.total_detections + detections.length,
      last_frame_time := some now,
      detected_objects :=
        detections.foldl (fun m d => tallyIncr m d.label)
          session.detected_objects }
  let elapsed_sec : Rat := (session'.total_processing_time_ms : Rat) / 1000
  let fps : Rat :=
    if 0 < elapsed_sec then (session'.frame_count : Rat) / elapsed_sec
    else (session'.config.target_fps : Rat)
  (session',
   { frame_number := sequence, timestamp_ms := now, detections := detections,
     fps := fps, processing_time_ms := dt })

/-- The `serde_json::to_vec(&result)` step of `process_session_chunk`,
modelled at the JSON level (field order as in the `Serialize` derive). -/
def frameResultToJson (r : FrameResult) : Json :=
  .obj [("frame_number", .num r.frame_number),
        ("timestamp_ms", .num r.timestamp_ms),
        ("detections", .arr (r.detections.map fun d =>
          .obj [("id", .num d.id), ("label", .str d.label),
                ("confidence", .num d.confidence),
                ("bbox", .obj [("x", .num d.bbox.x), ("y", .num d.bbox.y),
                               ("width", .num d.bbox.width),
                               ("height", .num d.bbox.height)]),
                ("class_id", .num d.class_id)])),
        ("fps", .num r.fps),
        ("processing_time_ms", .num r.processing_time_ms)]

/-- `YoloVideoProcessor::stream_capability` (the `Some(..)` payload). -/
def stream_capability : StreamCapability :=
  { direction := .Upload,
    mode := .Stateful,
    supported_data_types :=
      [.Image "jpeg", .Image "png",
       .Video "h264" 1920 1080 30, .Video "h265" 1920 1080 30],
    max_chunk_size := 5 * 1024 * 1024,
    preferred_chunk_size := 1024 * 1024,
    max_concurrent_sessions := 5 }

/-- `YoloVideoProcessor::init_session`: parses the config (defaulting on
malformed payloads), builds a fresh accumulator, rejects an already
present id with `SessionAlreadyExists` (leaving all state untouched),
otherwise inserts the session and updates the global stats
(`sessions_created + 1`, `active_sessions = sessions.len()`). The
source contains no check against `max_concurrent_sessions`. -/
def init_session (st : YoloState) (now : Int) (session : StreamSession) :
    YoloState × Except ExtensionError Unit :=
  let config := parseVideoConfig session.config
  let video_session : VideoSession :=
    { id := session.id, created_at := now, frame_count := 0,
      total_processing_time_ms := 0, total_detections := 0,
      last_frame_time := none, config := config, detected_objects := [] }
  match alistLookup st.sessions session.id with
  | some _ => (st, .error (.SessionAlreadyExists session.id))
  | none =>
      let sessions := (session.id, video_session) :: st.sessions
      let stats : GlobalStats :=
        { st.stats with
          sessions_created := st.stats.sessions_created + 1,
          active_sessions := sessions.length }
      ({ sessions := sessions, stats := stats }, .ok ())

/-- `YoloVideoProcessor::process_session_chunk`: looks the session up
(`SessionNotFound` if absent, leaving all state untouched), processes
the frame through `process_frame`, updates the global frame/detection
counters, and returns the `StreamResult` whose `output_sequence` is the
`frame_number` of the `FrameResult` — i.e. `chunk.sequence`. -/
def process_session_chunk (st : YoloState) (now : Int) (dt : Nat)
    (session_id : String) (chunk : DataChunk) :
    YoloState × Except ExtensionError StreamResult :=
  match alistLookup st.sessions session_id with
  | none => (st, .error (.SessionNotFound session_id))
  | some session =>
      let pr := process_frame session now dt chunk.data chunk.sequence
      let sessions := alistUpdate st.sessions session_id pr.1
      let result := pr.2
      let stats : GlobalStats :=
        { st.stats with
          total_frames_processed := st.stats.total_frames_processed + 1,
          total_detections := st.stats.total_detections + result.detections.length }
      ({ sessions := sessions, stats := stats },
       .ok { input_sequence := some chunk.sequence,
             output_sequence := result.frame_number,
             data := frameResultToJson result,
             data_type := .Json,
             processing_ms := (result.processing_time_ms : Rat),
             metadata := some (.obj
               [("fps", .num result.fps),
                ("detections", .num result.detections.length),
                ("processing_time_ms", .num result.processing_time_ms)]),
             error := none })

/-- `YoloVideoProcessor::close_session`: removes the session
(`SessionNotFound` if absent, leaving all state untouched), refreshes
`active_sessions` from the shrunken registry, and builds the
`SessionStats` summary — note the source computes `input_bytes` as
`frame_count * 1024`, `output_bytes` as `total_detections * 100`,
hard-codes `errors` to `0`, and stamps `last_activity` with
`Utc::now()` (the `now` argument), not the session's recorded
`last_frame_time`. -/
def close_session (st : YoloState) (now : Int) (session_id : String) :
    YoloState × Except ExtensionError SessionStats :=
  match alistLookup st.sessions session_id with
  | none => (st, .error (.SessionNotFound session_id))
  | some session =>
      let sessions := alistErase st.sessions session_id
      let stats : GlobalStats :=
        { st.stats with active_sessions := sessions.length }
      ({ sessions := sessions, stats := stats },
       .ok { input_chunks := session.frame_count,
             output_chunks := session.frame_count,
             input_bytes := session.frame_count * 1024,
             output_bytes := session.total_detections * 100,
             errors := 0,
             last_activity := now })

/-- One completed call into the stateful engine, with its
nondeterministic clock inputs made explicit. -/
inductive YoloOp where
  | init (now : Int) (s : StreamSession) : YoloOp
  | chunk (now : Int) (dt : Nat) (id : String) (c : DataChunk) : YoloOp
  | close (now : Int) (id : String) : YoloOp

/-- The state after one completed call (the `Except` payload is
dropped; on error every operation leaves the state unchanged, mirroring
the source's early returns). -/
def applyOp (st : YoloState) : YoloOp → YoloState
  | .init now s => (init_session st now s).1
  | .chunk now dt id c => (process_session_chunk st now dt id c).1
  | .close now id => (close_session st now id).1

/-- The state after a sequence of completed calls. -/
def runOps (st : YoloState) (ops : List YoloOp) : YoloState :=
  ops.foldl applyOp st

end YoloVideo

section AssocListLemmas

/-- Looking a key up after erasing it always misses. -/
theorem alistLookup_erase {α : Type} (l : List (String × α)) (k : String) :
    alistLookup (alistErase l k) k = none := by
  induction l with
  | nil => rfl
  | cons p rest ih =>
      obtain ⟨k₁, v⟩ := p
      by_cases h : k₁ = k <;> simp [alistErase, alistLookup, h, ih]

/-- Looking a key up after overwriting its value finds the new value
whenever the key was present. -/
theorem alistLookup_update {α : Type} (l : List (String × α)) (k : String) (w : α) :
    alistLookup (alistUpdate l k w) k = (alistLookup l k).map fun _ => w := by
  induction l with
  | nil => rfl
  | cons p rest ih =>
      obtain ⟨k₁, v⟩ := p
      by_cases h : k₁ = k <;> simp [alistUpdate, alistLookup, h, ih]

/-- Overwriting a value keeps the number of entries. -/
theorem alistUpdate_length {α : Type} (l : List (String × α)) (k : String) (v : α) :
    (alistUpdate l k v).length = l.length := by
  induction l with
  | nil => rfl
  | cons p rest ih =>
      obtain ⟨k₁, v₁⟩ := p
      by_cases h : k₁ = k <;> simp [alistUpdate, h, ih]

end AssocListLemmas

/-- The image chunk of the C2 counterexample: a `jpeg`-typed chunk one
byte over the declared 10 MB `max_chunk_size`. -/
def oversizedImageChunk : DataChunk :=
  { sequence := 0,
    data := List.replicate (10 * 1024 * 1024 + 1) 0,
    data_type := .Image "jpeg" }

/-- C2 counterexample: the claim says a chunk whose byte length exceeds
the declared `max_chunk_size` makes `process_chunk` return
`InvalidStreamData`; in the source `process_chunk` performs no size
check at all, so this oversized chunk (10 MB + 1 byte of a supported
`Image "jpeg"` type) is processed successfully. -/
theorem image_oversized_chunk_processed :
    ImageAnalyzer.stream_capability.max_chunk_size < oversizedImageChunk.data.length ∧
    (ImageAnalyzer.process_chunk ImageAnalyzer.initialStats 0 oversizedImageChunk).2.isOk = true := by
  refine ⟨?_, rfl⟩
  show 10 * 1024 * 1024 < (List.replicate (10 * 1024 * 1024 + 1) (0 : Nat)).length
  rw [List.length_replicate]
  omega

/-- C2 (amended): the stateless `process_chunk` returns
`InvalidStreamData` exactly for the data types it refuses — `Json` and
`Video` — regardless of the payload size; supported `Image` types and
the unsupported `Binary` type are both processed. The function is total
(no panic). -/
theorem image_chunk_error_iff (stats : ImageAnalyzer.ImageAnalyzerStats)
    (dt : Nat) (chunk : DataChunk) :
    (ImageAnalyzer.process_chunk stats dt chunk).2
        = .error (.InvalidStreamData "Expected image data") ↔
      (chunk.data_type = .Json ∨
        ∃ c w h f, chunk.data_type = .Video c w h f) := by
  obtain ⟨seq, data, dtype⟩ := chunk
  cases dtype <;>
    simp [ImageAnalyzer.process_chunk, ImageAnalyzer.process_chunk.processValidated]

/-- C4: whenever the stateless `process_chunk` returns an error, the
global counters (`images_processed`, `total_processing_time_ms`,
`detections_found`) are exactly the state they were before the call:
the only error return happens during type validation, before
`analyze_image` touches the counters. -/
theorem image_counters_unchanged_on_error (stats : ImageAnalyzer.ImageAnalyzerStats)
    (dt : Nat) (chunk : DataChunk) (e : ExtensionError)
    (h : (ImageAnalyzer.process_chunk stats dt chunk).2 = .error e) :
    (ImageAnalyzer.process_chunk stats dt chunk).1 = stats := by
  obtain ⟨seq, data, dtype⟩ := chunk
  cases dtype <;>
    simp_all [ImageAnalyzer.process_chunk, ImageAnalyzer.process_chunk.processValidated]

/-- C4 witness: a `Json`-typed chunk is rejected and leaves the
concrete counter state `⟨1, 2, 3⟩` unchanged. -/
theorem image_counters_unchanged_on_error_witness :
    (ImageAnalyzer.process_chunk ⟨1, 2, 3⟩ 4 ⟨5, [0, 1], .Json⟩).1 = ⟨1, 2, 3⟩ :=
  image_counters_unchanged_on_error ⟨1, 2, 3⟩ 4 ⟨5, [0, 1], .Json⟩
    (.InvalidStreamData "Expected image data") rfl

/-- C5: for every chunk within the declared `max_chunk_size` whose
`data_type` is in the declared `supported_data_types`, the stateless
`process_chunk` succeeds with `output_sequence = chunk.sequence` and
`input_sequence = some chunk.sequence`. -/
theorem image_chunk_ok_output_sequence (stats : ImageAnalyzer.ImageAnalyzerStats)
    (dt : Nat) (chunk : DataChunk)
    (hsize : chunk.data.length ≤ ImageAnalyzer.stream_capability.max_chunk_size)
    (htype : chunk.data_type ∈ ImageAnalyzer.stream_capability.supported_data_types) :
    Except.map StreamResult.output_sequence (ImageAnalyzer.process_chunk stats dt chunk).2
        = .ok chunk.sequence ∧
    Except.map StreamResult.input_sequence (ImageAnalyzer.process_chunk stats dt chunk).2
        = .ok (some chunk.sequence) := by
  obtain ⟨seq, data, dtype⟩ := chunk
  simp only [ImageAnalyzer.stream_capability, List.mem_cons,
    List.not_mem_nil, or_false] at htype
  rcases htype with h | h | h <;> subst h <;>
    simp [ImageAnalyzer.process_chunk, ImageAnalyzer.process_chunk.processValidated,
      Except.map]

/-- C5 witness: a small `jpeg` chunk with sequence `7` is processed with
`output_sequence = 7` and `input_sequence = some 7`. -/
theorem image_chunk_ok_output_sequence_witness :
    Except.map StreamResult.output_sequence
        (ImageAnalyzer.process_chunk ImageAnalyzer.initialStats 3
          ⟨7, [], .Image "jpeg"⟩).2 = .ok 7 ∧
    Except.map StreamResult.input_sequence
        (ImageAnalyzer.process_chunk ImageAnalyzer.initialStats 3
          ⟨7, [], .Image "jpeg"⟩).2 = .ok (some 7) :=
  image_chunk_ok_output_sequence ImageAnalyzer.initialStats 3 ⟨7, [], .Image "jpeg"⟩
    (by decide) (by decide)

/-- C9: a chunk tagged `Binary` — a type absent from the image
analyzer's declared `supported_data_types` (`jpeg`, `png`, `webp`
images only) — is nevertheless processed successfully: the validation
`match` in the source explicitly allows `Binary`. -/
theorem image_accepts_binary (stats : ImageAnalyzer.ImageAnalyzerStats)
    (dt : Nat) (chunk : DataChunk) (h : chunk.data_type = .Binary) :
    (ImageAnalyzer.process_chunk stats dt chunk).2.isOk = true ∧
    StreamDataType.Binary ∉ ImageAnalyzer.stream_capability.supported_data_types := by
  obtain ⟨seq, data, dtype⟩ := chunk
  cases h
  exact ⟨rfl, by decide⟩

/-- C9 witness: a concrete `Binary` chunk is accepted. -/
theorem image_accepts_binary_witness :
    (ImageAnalyzer.process_chunk ImageAnalyzer.initialStats 1
        ⟨2, [3, 4], .Binary⟩).2.isOk = true ∧
    StreamDataType.Binary ∉ ImageAnalyzer.stream_capability.supported_data_types :=
  image_accepts_binary ImageAnalyzer.initialStats 1 ⟨2, [3, 4], .Binary⟩ rfl

/-- The registry state after five successful `init_session` calls
(sessions `s1` … `s5`), i.e. exactly `max_concurrent_sessions` active
sessions. -/
def fiveSessionState : YoloVideo.YoloState :=
  YoloVideo.runOps YoloVideo.initialState
    [.init 0 ⟨"s1", .malformed⟩, .init 0 ⟨"s2", .malformed⟩,
     .init 0 ⟨"s3", .malformed⟩, .init 0 ⟨"s4", .malformed⟩,
     .init 0 ⟨"s5", .malformed⟩]

/-- C1: the claim (and the spec) say that once the registered sessions
reach the declared `max_concurrent_sessions` (5), `init_session` with a
fresh id fails with `CapacityExceeded`. The source never consults
`max_concurrent_sessions`: with 5 sessions registered, a sixth
`init_session` returns `Ok` and inserts a sixth session. This theorem
evaluates the code at that failing input. -/
theorem yolo_capacity_not_enforced :
    YoloVideo.stream_capability.max_concurrent_sessions = 5 ∧
    fiveSessionState.sessions.length = 5 ∧
    (YoloVideo.init_session fiveSessionState 0 ⟨"s6", .malformed⟩).2 = .ok () ∧
    (YoloVideo.init_session fiveSessionState 0 ⟨"s6", .malformed⟩).1.sessions.length = 6 :=
  ⟨rfl, rfl, rfl, rfl⟩

/-- The registry state after one successful `init_session` for id `s`
(with a malformed config payload, so the session carries the derived
default `VideoConfig`). -/
def oneSessionState : YoloVideo.YoloState :=
  (YoloVideo.init_session YoloVideo.initialState 0 ⟨"s", .malformed⟩).1

/-- C3 counterexample: the claim says `output_sequence` equals the
session's internal frame counter and is independent of the chunk's own
`sequence` field. Feeding the first chunk of a fresh session with
`sequence = 42` yields `output_sequence = 42` — the chunk's own
sequence — while the internal frame counter (post-increment) is `1`. -/
theorem yolo_output_sequence_counterexample :
    Except.map StreamResult.output_sequence
        (YoloVideo.process_session_chunk oneSessionState 7 3 "s"
          ⟨42, [], .Image "jpeg"⟩).2 = .ok 42 ∧
    Option.map YoloVideo.VideoSession.frame_count
        (alistLookup (YoloVideo.process_session_chunk oneSessionState 7 3 "s"
          ⟨42, [], .Image "jpeg"⟩).1.sessions "s") = some 1 ∧
    (42 : Nat) ≠ 1 :=
  ⟨rfl, rfl, by decide⟩

/-- C3 (amended): for every session and accepted chunk,
`process_session_chunk` reports the chunk's own `sequence` field in
both `output_sequence` and `input_sequence` (the source passes
`chunk.sequence` into `process_frame` as the result's `frame_number`
and copies that into `output_sequence`); the session's internal frame
counter is incremented once per processed chunk but is not what
`output_sequence` reports. -/
theorem yolo_output_sequence_is_chunk_sequence (st : YoloVideo.YoloState)
    (now : Int) (dt : Nat) (id : String) (chunk : DataChunk)
    (session : YoloVideo.VideoSession)
    (h : alistLookup st.sessions id = some session) :
    Except.map StreamResult.output_sequence
        (YoloVideo.process_session_chunk st now dt id chunk).2 = .ok chunk.sequence ∧
    Except.map StreamResult.input_sequence
        (YoloVideo.process_session_chunk st now dt id chunk).2
        = .ok (some chunk.sequence) ∧
    Option.map YoloVideo.VideoSession.frame_count
        (alistLookup (YoloVideo.process_session_chunk st now dt id chunk).1.sessions id)
        = some (session.frame_count + 1) := by
  unfold YoloVideo.process_session_chunk
  rw [h]
  refine ⟨rfl, rfl, ?_⟩
  simp [alistLookup_update, h, YoloVideo.process_frame]

/-- C3 witness: the amended theorem evaluated on the fresh session of
`oneSessionState` and a chunk with sequence `42`. -/
theorem yolo_output_sequence_is_chunk_sequence_witness :
    Except.map StreamResult.output_sequence
        (YoloVideo.process_session_chunk oneSessionState 7 3 "s"
          ⟨42, [], .Image "jpeg"⟩).2 = .ok 42 ∧
    Except.map StreamResult.input_sequence
        (YoloVideo.process_session_chunk oneSessionState 7 3 "s"
          ⟨42, [], .Image "jpeg"⟩).2 = .ok (some 42) ∧
    Option.map YoloVideo.VideoSession.frame_count
        (alistLookup (YoloVideo.process_session_chunk oneSessionState 7 3 "s"
          ⟨42, [], .Image "jpeg"⟩).1.sessions "s") = some (0 + 1) :=
  yolo_output_sequence_is_chunk_sequence oneSessionState 7 3 "s"
    ⟨42, [], .Image "jpeg"⟩
    { id := "s", created_at := 0, frame_count := 0,
      total_processing_time_ms := 0, total_detections := 0,
      last_frame_time := none, config := YoloVideo.VideoConfig.zero,
      detected_objects := [] } rfl

/-- C6: a second `init_session` with an id that a successful first
`init_session` registered returns `SessionAlreadyExists` and leaves the
whole state — in particular the first session's accumulator (frame
count, totals, config, detected-object tally) — exactly as it was. -/
theorem yolo_double_init_rejected (st st' : YoloVideo.YoloState)
    (now now' : Int) (s s' : StreamSession)
    (h : YoloVideo.init_session st now s = (st', .ok ()))
    (hid : s'.id = s.id) :
    YoloVideo.init_session st' now' s' = (st', .error (.SessionAlreadyExists s'.id)) := by
  unfold YoloVideo.init_session at h ⊢
  rcases hl : alistLookup st.sessions s.id with _ | v
  · rw [hl] at h
    rw [Prod.mk.injEq] at h
    obtain ⟨h1, -⟩ := h
    subst h1
    simp [alistLookup, hid]
  · rw [hl] at h
    simp at h

/-- C6 witness: re-initializing id `s` (even with a different,
well-formed config) is rejected and leaves `oneSessionState`
untouched. -/
theorem yolo_double_init_rejected_witness :
    YoloVideo.init_session oneSessionState 5 ⟨"s", .wellFormed 1 2 3 true⟩
      = (oneSessionState, .error (.SessionAlreadyExists "s")) :=
  yolo_double_init_rejected YoloVideo.initialState oneSessionState 0 5
    ⟨"s", .malformed⟩ ⟨"s", .wellFormed 1 2 3 true⟩ rfl rfl

/-- C7: after a successful `close_session id`, the session record is
gone from the registry (the lookup misses — the record is deleted, not
kept in a closed state), and every subsequent `process_session_chunk`
on that id returns `SessionNotFound` and leaves the state unchanged. -/
theorem yolo_closed_session_not_found (st st' : YoloVideo.YoloState)
    (now : Int) (id : String) (summary : SessionStats)
    (h : YoloVideo.close_session st now id = (st', .ok summary)) :
    alistLookup st'.sessions id = none ∧
    ∀ (now2 : Int) (dt : Nat) (chunk : DataChunk),
      YoloVideo.process_session_chunk st' now2 dt id chunk
        = (st', .error (.SessionNotFound id)) := by
  unfold YoloVideo.close_session at h
  rcases hl : alistLookup st.sessions id with _ | v
  · rw [hl] at h
    simp at h
  · rw [hl] at h
    rw [Prod.mk.injEq] at h
    obtain ⟨h1, -⟩ := h
    subst h1
    refine ⟨alistLookup_erase st.sessions id, ?_⟩
    intro now2 dt chunk
    unfold YoloVideo.process_session_chunk
    simp [alistLookup_erase]

/-- C7 witness: closing the one session `s` and then feeding it a chunk
yields `SessionNotFound`, with the registry entry gone. -/
theorem yolo_closed_session_not_found_witness :
    alistLookup (YoloVideo.close_session oneSessionState 9 "s").1.sessions "s" = none ∧
    YoloVideo.process_session_chunk (YoloVideo.close_session oneSessionState 9 "s").1
        1 2 "s" ⟨3, [], .Binary⟩
      = ((YoloVideo.close_session oneSessionState 9 "s").1,
         .error (.SessionNotFound "s")) := by
  have H := yolo_closed_session_not_found oneSessionState
    (YoloVideo.close_session oneSessionState 9 "s").1 9 "s"
    ⟨0, 0, 0, 0, 0, 9⟩ rfl
  exact ⟨H.1, H.2 1 2 ⟨3, [], .Binary⟩⟩

/-- The state after initializing session `c8` (default config) and
processing one chunk whose payload is the five bytes `[1, 2, 3, 4, 5]`
at timestamp `7`. -/
def c8MidState : YoloVideo.YoloState :=
  (YoloVideo.process_session_chunk
    (YoloVideo.init_session YoloVideo.initialState 0 ⟨"c8", .malformed⟩).1
    7 0 "c8" ⟨1, [1, 2, 3, 4, 5], .Image "jpeg"⟩).1

/-- C8 counterexample: the claim says the summary's byte totals equal
the total payload bytes of the processed chunks and its last-activity
timestamp is the session's recorded last activity. After one chunk of
5 payload bytes processed at timestamp 7, closing at timestamp 999
reports `input_bytes = 1024` (the source computes
`frame_count * 1024`, not payload bytes) and `last_activity = 999`
(the source stamps `Utc::now()` at close, not the recorded
`last_frame_time = 7`). -/
theorem yolo_close_summary_counterexample :
    Option.map YoloVideo.VideoSession.last_frame_time
        (alistLookup c8MidState.sessions "c8") = some (some 7) ∧
    Except.map SessionStats.input_bytes
        (YoloVideo.close_session c8MidState 999 "c8").2 = .ok 1024 ∧
    Except.map SessionStats.last_activity
        (YoloVideo.close_session c8MidState 999 "c8").2 = .ok 999 ∧
    (1024 : Nat) ≠ 1 * 5 ∧ (999 : Int) ≠ 7 :=
  ⟨rfl, rfl, rfl, by decide, by decide⟩

/-- C8 (amended): the summary returned by `close_session` is computed
from the final accumulator as follows: `input_chunks` and
`output_chunks` are the session's frame count (one per successfully
processed chunk); `input_bytes` is the estimate `frame_count * 1024`
and `output_bytes` the estimate `total_detections * 100` (not actual
payload byte totals); `errors` is the constant `0`; `last_activity` is
the close-time timestamp, not the session's recorded
`last_frame_time`. -/
theorem yolo_close_summary_formula (st : YoloVideo.YoloState) (now : Int)
    (id : String) (session : YoloVideo.VideoSession)
    (h : alistLookup st.sessions id = some session) :
    (YoloVideo.close_session st now id).2
      = .ok { input_chunks := session.frame_count,
              output_chunks := session.frame_count,
              input_bytes := session.frame_count * 1024,
              output_bytes := session.total_detections * 100,
              errors := 0,
              last_activity := now } := by
  unfold YoloVideo.close_session
  rw [h]

/-- C8 witness: closing the `c8` session (one processed chunk, no
surviving detections under the default config) at timestamp 999. -/
theorem yolo_close_summary_formula_witness :
    (YoloVideo.close_session c8MidState 999 "c8").2
      = .ok { input_chunks := 1, output_chunks := 1, input_bytes := 1 * 1024,
              output_bytes := 0 * 100, errors := 0, last_activity := 999 } :=
  yolo_close_summary_formula c8MidState 999 "c8"
    { id := "c8", created_at := 0, frame_count := 1,
      total_processing_time_ms := 0, total_detections := 0,
      last_frame_time := some 7, config := YoloVideo.VideoConfig.zero,
      detected_objects := [] } rfl

/-- Each completed call preserves the agreement between the
`active_sessions` statistic and the registry's entry count: successful
`init_session` and `close_session` recompute it from the map length,
`process_session_chunk` changes neither, and failed calls change
nothing. -/
theorem applyOp_preserves_session_count (st : YoloVideo.YoloState)
    (op : YoloVideo.YoloOp)
    (h : st.stats.active_sessions = st.sessions.length) :
    (YoloVideo.applyOp st op).stats.active_sessions
      = (YoloVideo.applyOp st op).sessions.length := by
  cases op with
  | init now s =>
      unfold YoloVideo.applyOp YoloVideo.init_session
      rcases hl : alistLookup st.sessions s.id with _ | v <;> simp [hl, h]
  | chunk now dt id c =>
      unfold YoloVideo.applyOp YoloVideo.process_session_chunk
      rcases hl : alistLookup st.sessions id with _ | v <;>
        simp [hl, h, alistUpdate_length]
  | close now id =>
      unfold YoloVideo.applyOp YoloVideo.close_session
      rcases hl : alistLookup st.sessions id with _ | v <;> simp [hl, h]

/-- The agreement is preserved along any sequence of completed calls. -/
theorem runOps_session_count (ops : List YoloVideo.YoloOp) :
    ∀ st : YoloVideo.YoloState,
      st.stats.active_sessions = st.sessions.length →
      (YoloVideo.runOps st ops).stats.active_sessions
        = (YoloVideo.runOps st ops).sessions.length := by
  induction ops with
  | nil => intro st h; exact h
  | cons op rest ih =>
      intro st h
      exact ih (YoloVideo.applyOp st op) (applyOp_preserves_session_count st op h)

/-- C10: after every sequence of completed `init_session`,
`process_session_chunk`, and `close_session` calls from the initial
state, the `active_sessions` statistic equals the number of entries in
the session registry (every intermediate state is itself reached by
some such sequence, so the statistic agrees after each call). -/
theorem yolo_active_sessions_tracks_registry (ops : List YoloVideo.YoloOp) :
    (YoloVideo.runOps YoloVideo.initialState ops).stats.active_sessions
      = (YoloVideo.runOps YoloVideo.initialState ops).sessions.length :=
  runOps_session_count ops YoloVideo.initialState rfl
